import Mathlib

/-!
Verification development for the Optuna-based ranking-weight optimization
harness (Python driver scripts under the optimization directories).

Embedding conventions:
* Python floats are modelled as rationals; the claims under study concern
  control flow, selection, indexing and exact arithmetic identities, none of
  which depend on binary floating-point rounding.
* Python strings are modelled as Lean strings, with character-list versions of
  strip / split / substring-containment mirroring the Python builtins.
* A subprocess invocation of the external Node evaluator is modelled by an
  EvalResult record carrying the observable outcome of the call (timeout flag,
  exit code, captured stdout and stderr); the run_evaluator functions of the
  drivers are translated as pure classifiers over that record.
* The Optuna library itself is not part of the repository; its study loop,
  trial ledger and best-trial selection are modelled from the spec (see the
  doc comments marked accordingly).
-/

namespace RankingOpt

/-! ## String primitives (models of Python str.strip, str.split, `in`) -/

/-- Whitespace characters removed by Python str.strip (space, tab, newline,
carriage return, vertical tab, form feed). -/
def isPyWS (c : Char) : Bool :=
  c = ' ' || c = '\t' || c = '\n' || c = '\r' || c.toNat = 11 || c.toNat = 12

/-- Strip leading and trailing Python whitespace from a character list. -/
def pyStripChars (cs : List Char) : List Char :=
  ((cs.dropWhile isPyWS).reverse.dropWhile isPyWS).reverse

/-- Model of Python str.strip. -/
def pyStrip (s : String) : String := String.mk (pyStripChars s.toList)

/-- Does the character list start with the given pattern? -/
def startsWithChars : List Char → List Char → Bool
  | _, [] => true
  | [], _ :: _ => false
  | c :: cs, p :: ps => c = p && startsWithChars cs ps

/-- Does the pattern occur as a contiguous subsequence of the haystack?
Model of the Python substring test (pat in hay). -/
def containsSeq : List Char → List Char → Bool
  | [], pat => pat.isEmpty
  | c :: rest, pat => startsWithChars (c :: rest) pat || containsSeq rest pat

/-- Model of the Python substring test on strings. -/
def containsSub (s pat : String) : Bool := containsSeq s.toList pat.toList

/-- Split a character list on newline characters; model of str.split("\n"). -/
def splitLinesAux (cur : List Char) : List Char → List (List Char)
  | [] => [cur.reverse]
  | c :: cs =>
      if c = '\n' then cur.reverse :: splitLinesAux [] cs
      else splitLinesAux (c :: cur) cs

/-- Split a character list into its newline-separated lines. -/
def splitLines (cs : List Char) : List (List Char) := splitLinesAux [] cs

/-- Model of the line extraction in run_evaluator:
lines = [l.strip() for l in result.stdout.strip().split("\n") if l.strip()]. -/
def nonBlankLines (s : String) : List String :=
  (((splitLines (pyStripChars s.toList)).map
      (fun l => String.mk (pyStripChars l))).filter (fun l => l ≠ ""))

/-! ## Model of Python float() on decimal literals -/

/-- Numeric value of a list of decimal digit characters. -/
def digitsVal (ds : List Char) : Nat :=
  ds.foldl (fun n c => 10 * n + (c.toNat - 48)) 0

/-- Parse an unsigned decimal literal: digits with an optional fractional
part, at least one digit overall (accepting forms like 15, 1.5, 1., .5). -/
def parseUnsigned (cs : List Char) : Option ℚ :=
  let intPart := cs.takeWhile (fun c => c.isDigit)
  let rest := cs.dropWhile (fun c => c.isDigit)
  match rest with
  | [] => if intPart.isEmpty then none else some (digitsVal intPart : ℚ)
  | '.' :: frac =>
      if frac.all (fun c => c.isDigit) && !(intPart.isEmpty && frac.isEmpty) then
        some ((digitsVal intPart : ℚ) + (digitsVal frac : ℚ) / (10 ^ frac.length : ℚ))
      else none
  | _ => none

/-- Parse an optionally signed decimal literal. -/
def parseFloatChars (cs : List Char) : Option ℚ :=
  match cs with
  | '-' :: rest => (parseUnsigned rest).map (fun q => -q)
  | '+' :: rest => parseUnsigned rest
  | _ => parseUnsigned cs

/-- Model of Python float(s) on strings: surrounding whitespace is ignored,
the remainder must be one signed decimal literal, and anything else (letters,
interior whitespace, several tokens) raises ValueError, modelled as none.
Exponent, infinity and nan forms are rejected; no claim involves them. -/
def parsePyFloat (s : String) : Option ℚ :=
  parseFloatChars (pyStripChars s.toList)

/-! ## Evaluator invocations and their classification -/

/-- Observable outcome of one subprocess.run invocation of the external Node
evaluator: whether the per-trial timeout expired, and otherwise the exit code
and the captured output texts. -/
structure EvalResult where
  timedOut : Bool
  exitCode : Int
  stdout : String
  stderr : String
deriving DecidableEq

/-- Terminal classification of one trial, as recorded in the study ledger. -/
inductive EvalOutcome where
  | complete (value : ℚ)
  | pruned (reason : String)
  | failed (reason : String)
deriving DecidableEq

/-- Is the outcome COMPLETE? -/
def EvalOutcome.isComplete : EvalOutcome → Bool
  | .complete _ => true
  | _ => false

/-- Is the outcome PRUNED? -/
def EvalOutcome.isPruned : EvalOutcome → Bool
  | .pruned _ => true
  | _ => false

/-- Is the outcome FAILED? -/
def EvalOutcome.isFailed : EvalOutcome → Bool
  | .failed _ => true
  | _ => false

/-- The value of a COMPLETE outcome. -/
def EvalOutcome.valueOf : EvalOutcome → Option ℚ
  | .complete v => some v
  | _ => none

/-- Model of error_output = result.stderr or result.stdout (Python or on
strings: the first operand unless it is empty). -/
def errorOutput (r : EvalResult) : String :=
  if r.stderr = "" then r.stdout else r.stderr

/-- The transient-failure classification of optimize_excellent_fit_top3
(the PruningPolicy): the captured error text matches a quota or rate-limit
signature. -/
def transientSignature (e : String) : Bool :=
  containsSub e "insufficient_quota" || containsSub e "429" ||
    containsSub e "RateLimitError"

/-- Translation of run_evaluator in optimize_excellent_fit_top3.py:
a timeout raises optuna.TrialPruned (trial PRUNED); a non-zero exit whose
error text matches a transient signature raises optuna.TrialPruned (trial
PRUNED); any other non-zero exit raises RuntimeError (trial FAILED); on a
zero exit the value is float(lines[-1]) over the non-blank stripped stdout
lines, a missing or malformed line raising (trial FAILED). -/
def runEvaluatorEF (r : EvalResult) : EvalOutcome :=
  if r.timedOut then .pruned "timeout"
  else if r.exitCode ≠ 0 then
    if transientSignature (errorOutput r) then .pruned "API quota exceeded"
    else .failed ("evaluate-excellent-fit-llm.js failed: " ++ errorOutput r)
  else
    match (nonBlankLines r.stdout).getLast? with
    | none => .failed "evaluate-excellent-fit-llm.js produced no stdout"
    | some last =>
        match parsePyFloat last with
        | some v => .complete v
        | none => .failed ("could not convert string to float: " ++ last)

/-- Translation of run_evaluator in optimize_ranking.py (same code shape in
optimize_bm25_params.py and optimize_field_weights.py): subprocess.run is
called with a timeout but without any TimeoutExpired handler, so a timeout
raises out of the objective (trial FAILED); every non-zero exit raises
RuntimeError (trial FAILED) with no transient-signature check; on a zero exit
the value is float(result.stdout.strip()) over the whole stripped stdout. -/
def runEvaluatorRanking (r : EvalResult) : EvalOutcome :=
  if r.timedOut then .failed "subprocess.TimeoutExpired"
  else if r.exitCode ≠ 0 then .failed ("Evaluator failed: " ++ errorOutput r)
  else
    match parsePyFloat (pyStrip r.stdout) with
    | some v => .complete v
    | none => .failed ("could not convert string to float: " ++ pyStrip r.stdout)

/-! ## Parameter dictionaries -/

/-- A parameter mapping, modelled as an insertion-ordered association list
(the JSON objects and Python dicts exchanged with the evaluator). -/
abbrev Params := List (String × ℚ)

/-- Model of the Python dict assignment d[k] = v: if the key is present its
(first and, in a dict, only) binding is replaced in place, otherwise the new
binding is appended at the end. -/
def dictSet (d : Params) (k : String) (v : ℚ) : Params :=
  if (d.lookup k).isSome then d.map (fun p => if p.1 = k then (k, v) else p)
  else d ++ [(k, v)]

/-- Materialize the full parameter set: the base configuration with the
sampled bindings overlaid one by one.  Translation of the overlay loops
(params[key] = trial.suggest_float(...) in optimize_excellent_fit_top3.py,
weights.update(params) in optimize_ranking.py and optimize_bm25_params.py). -/
def materialize (base : Params) (sampled : Params) : Params :=
  sampled.foldl (fun d p => dictSet d p.1 p.2) base

/-- The parameter file written by the objective of optimize_stage_a_recall.py
with TUNE_FIELDS unset: the fixed stage_a_top_n together with the sampled
k1 and b. -/
def stageAParams (k1v bv : ℚ) : Params :=
  [("stage_a_top_n", 150), ("k1", k1v), ("b", bv)]

/-! ## The driver loop and the study ledger -/

/-- One recorded trial of a study: its number, the sampled parameters and its
terminal classification. -/
structure TrialRec where
  number : Nat
  params : Params
  outcome : EvalOutcome
deriving DecidableEq

/-- Modelled from the spec: the Optuna study loop (study.optimize with its
default exception handling), which is library code not present in the
repository.  Trials receive consecutive numbers; an objective that raises
optuna.TrialPruned records a PRUNED trial and the loop continues; an
objective that raises any other exception records a FAILED trial and the
loop aborts (the exception propagates); a returned value records a COMPLETE
trial.  The input list pairs each prospective trial with the sampled
parameters and the classified evaluator outcome. -/
def driverLoop (firstNumber : Nat) : List (Params × EvalOutcome) → List TrialRec
  | [] => []
  | (ps, o) :: rest =>
      { number := firstNumber, params := ps, outcome := o } ::
        (if o.isFailed then [] else driverLoop (firstNumber + 1) rest)

/-- A whole study run: the driver loop started at trial number 0. -/
def runStudy (inputs : List (Params × EvalOutcome)) : List TrialRec :=
  driverLoop 0 inputs

/-- The COMPLETE trials of a ledger. -/
def completedRecs (ts : List TrialRec) : List TrialRec :=
  ts.filter (fun t => t.outcome.isComplete)

/-- The recorded value of a trial (0 for non-COMPLETE trials, which never
carry a value). -/
def recValue (t : TrialRec) : ℚ := t.outcome.valueOf.getD 0

/-- One step of the best-trial scan: keep the strictly better trial, the
earlier one on ties. -/
def bestStep (acc : Option TrialRec) (t : TrialRec) : Option TrialRec :=
  match acc with
  | none => some t
  | some b => if recValue b < recValue t then some t else some b

/-- Modelled from the spec: Study.best_trial of the Optuna library (not part
of the repository) for a MAXIMIZE study, as described in the data model of
the spec: the COMPLETE trial with extremal value, absent when no COMPLETE
trial exists; ties keep the first trial in ascending number order. -/
def bestTrialOf (ts : List TrialRec) : Option TrialRec :=
  (completedRecs ts).foldl bestStep none

/-- Outcome of the post-loop epilogue of main in
optimize_excellent_fit_top3.py. -/
inductive MainOutcome where
  | noUsableResult (exitCode : Nat) (message : String)
  | success (best : TrialRec)
deriving DecidableEq

/-- Translation of the epilogue of main in optimize_excellent_fit_top3.py:
without a best trial it prints an explanation to stderr and exits with
status 1; otherwise it proceeds with the best trial (the subsequent writing
of the best weights file is not needed by any claim and is abstracted as the
success payload). -/
def mainFinishEF (ts : List TrialRec) : MainOutcome :=
  match bestTrialOf ts with
  | none => .noUsableResult 1
      "No completed trials (all timed out or failed). Increase TRIAL_TIMEOUT or lower LIMIT."
  | some t => .success t

/-! ## In-place rewriting of the shared default weights file -/

/-- The successive contents of the shared default weights file
(ranking-weights.json) across the trials of optimize_ranking.py,
optimize_bm25_params.py or optimize_field_weights.py: each objective call
reads the current file, overlays the sampled parameters and writes the result
back to the same path, so the file contents evolve by scanning materialize
over the sampled sets. -/
def rankingWeightsStates (init : Params) (samples : List Params) : List Params :=
  List.scanl materialize init samples

/-- Translation of the end of main in optimize_ranking.py (same shape in
optimize_bm25_params.py and optimize_field_weights.py): the default weights
file is read once more after the study, overlaid with the best parameters and
written back to the default path, overwriting it. -/
def rankingFinalWeights (afterStudy : Params) (best : Params) : Params :=
  materialize afterStudy best

/-! ## The result analyzer (analyze_optuna_results.py) -/

/-- One entry of trials_data: number, value and parameters of a COMPLETE
trial. -/
structure TrialData where
  number : Nat
  value : ℚ
  params : Params
deriving DecidableEq

/-- Extraction of trials_data from the study: the COMPLETE trials only. -/
def completedData (ts : List TrialRec) : List TrialData :=
  ts.filterMap (fun t =>
    match t.outcome with
    | .complete v => some { number := t.number, value := v, params := t.params }
    | _ => none)

instance : DecidableRel (fun (a b : TrialData) => b.value ≤ a.value) :=
  fun a b => inferInstanceAs (Decidable (b.value ≤ a.value))

instance : IsTotal TrialData (fun a b => b.value ≤ a.value) :=
  ⟨fun a b => le_total b.value a.value⟩

instance : IsTrans TrialData (fun a b => b.value ≤ a.value) :=
  ⟨fun _ _ _ h1 h2 => le_trans h2 h1⟩

/-- Model of trials_data.sort(key=lambda x: value, reverse=True): the
completed trials in descending value order. -/
def sortByValueDesc (ds : List TrialData) : List TrialData :=
  ds.insertionSort (fun a b => b.value ≤ a.value)

/-- Model of statistics.mean (raises on an empty list in Python; every use in
the analyzer is on a non-empty list). -/
def mean (xs : List ℚ) : ℚ := xs.sum / xs.length

/-- Model of statistics.median: middle element of the sorted values, or the
average of the two middle elements for an even count. -/
def median (xs : List ℚ) : ℚ :=
  let s := xs.insertionSort (· ≤ ·)
  let n := xs.length
  if n % 2 = 1 then s.getD (n / 2) 0
  else (s.getD (n / 2 - 1) 0 + s.getD (n / 2) 0) / 2

/-- Model of Python min over a non-empty list. -/
def pyMin : List ℚ → ℚ
  | [] => 0
  | x :: r => r.foldl min x

/-- Model of Python max over a non-empty list. -/
def pyMax : List ℚ → ℚ
  | [] => 0
  | x :: r => r.foldl max x

/-- The value_distribution block of the analysis.  The sample standard
deviation of the source is omitted: it is a real square root and no claim
refers to it. -/
structure ValueDist where
  minV : ℚ
  maxV : ℚ
  meanV : ℚ
  medianV : ℚ
  q25 : ℚ
  q75 : ℚ
deriving DecidableEq

/-- Translation of the value_distribution block of analyze_optuna_results.py:
min(values) raises ValueError on an empty list (the analyzer requires at
least one COMPLETE trial); otherwise min, max, mean, median and the two
floor-index quartiles sorted_values[n // 4] and sorted_values[3 * n // 4]. -/
def valueDistribution (values : List ℚ) : Except String ValueDist :=
  match values with
  | [] => .error "min() arg is an empty sequence"
  | _ :: _ =>
      let s := values.insertionSort (· ≤ ·)
      let n := values.length
      .ok { minV := pyMin values, maxV := pyMax values, meanV := mean values,
            medianV := median values,
            q25 := s.getD (n / 4) 0, q75 := s.getD (3 * n / 4) 0 }

/-- Translation of the improvement_over_baseline expression of
analyze_optuna_results.py:
(study.best_value - baseline_value) if (study.best_value and baseline_value)
else None.  The Python condition is truthiness, so a present but zero best
value or baseline yields None. -/
def improvementOverBaseline (bestValue : Option ℚ) (baseline : ℚ) : Option ℚ :=
  match bestValue with
  | some b => if b = 0 then none else if baseline = 0 then none else some (b - baseline)
  | none => none

/-- Translation of the baseline fallback of analyze_optuna_results.py: the
value read from the baseline file, or the hard-coded 65.0 when absent. -/
def baselineOrFallback (fromFile : Option ℚ) : ℚ := fromFile.getD 65

/-- Model of param_names = list(trials_data[0]["params"].keys()) (empty when
there are no completed trials). -/
def paramNames (tdata : List TrialData) : List String :=
  match tdata with
  | [] => []
  | t :: _ => t.params.map Prod.fst

/-- Parameter access t["params"][param].  In Python a missing key raises
KeyError; every driver samples the identical key set on every trial, so in
every reachable analysis the lookup succeeds and the default is inert. -/
def getParam (t : TrialData) (k : String) : ℚ := (t.params.lookup k).getD 0

/-- One row of the correlation_analysis block. -/
structure CorrRow where
  param : String
  top10Mean : ℚ
  bottom10Mean : ℚ
  difference : ℚ
deriving DecidableEq

/-- Translation of the correlation block of analyze_optuna_results.py: only
when at least 20 trials completed, for each parameter the mean over the 10
highest-value trials (trials_data[:10] of the descending-sorted data), the
mean over the 10 lowest-value trials (trials_data[-10:]) and their signed
difference; otherwise the dict stays empty. -/
def correlationAnalysis (tdata : List TrialData) : List CorrRow :=
  if 20 ≤ tdata.length then
    (paramNames tdata).map (fun p =>
      let topVals := (tdata.take 10).map (fun t => getParam t p)
      let bottomVals := (tdata.drop (tdata.length - 10)).map (fun t => getParam t p)
      { param := p, top10Mean := mean topVals, bottom10Mean := mean bottomVals,
        difference := mean topVals - mean bottomVals })
  else []

instance : DecidableRel (fun (a b : CorrRow) => |b.difference| ≤ |a.difference|) :=
  fun a b => inferInstanceAs (Decidable (|b.difference| ≤ |a.difference|))

instance : IsTotal CorrRow (fun a b => |b.difference| ≤ |a.difference|) :=
  ⟨fun a b => le_total |b.difference| |a.difference|⟩

instance : IsTrans CorrRow (fun a b => |b.difference| ≤ |a.difference|) :=
  ⟨fun _ _ _ h1 h2 => le_trans h2 h1⟩

/-- Translation of the report section for the correlation analysis: the
section is emitted only when the correlation dict is truthy (non-empty), its
rows sorted by descending absolute difference
(sorted(..., key=lambda x: abs(difference), reverse=True)); none models an
absent section. -/
def correlationSection (tdata : List TrialData) : Option (List CorrRow) :=
  if (correlationAnalysis tdata).isEmpty then none
  else some ((correlationAnalysis tdata).insertionSort
      (fun a b => |b.difference| ≤ |a.difference|))

/-- The summary block of the analysis. -/
structure Summary where
  totalTrials : Nat
  completedCount : Nat
  bestValue : Option ℚ
  bestNumber : Option Nat
  baselineValue : ℚ
  improvement : Option ℚ
deriving DecidableEq

/-- Translation of the summary block of analyze_optuna_results.py, with
Study.best_trial modelled from the spec as absent when no COMPLETE trial
exists. -/
def buildSummary (ts : List TrialRec) (tdata : List TrialData) (baseline : ℚ) :
    Summary :=
  let best := bestTrialOf ts
  { totalTrials := ts.length,
    completedCount := tdata.length,
    bestValue := best.map recValue,
    bestNumber := best.map TrialRec.number,
    baselineValue := baseline,
    improvement := improvementOverBaseline (best.map recValue) baseline }

/-- The analysis object assembled by analyze_optuna_results.py (the parts the
claims refer to). -/
structure Analysis where
  summary : Summary
  dist : ValueDist
  correlation : List CorrRow
deriving DecidableEq

/-- Translation of the analysis construction of analyze_optuna_results.py:
trials_data is the descending-sorted list of COMPLETE trials; the summary and
the correlation block are computed, and the value_distribution block raises
ValueError (min of an empty sequence) when there is no COMPLETE trial, which
aborts the whole script before any report is written. -/
def buildAnalysis (ts : List TrialRec) (baseline : ℚ) : Except String Analysis :=
  let tdata := sortByValueDesc (completedData ts)
  match valueDistribution (tdata.map TrialData.value) with
  | .error e => .error e
  | .ok d =>
      .ok { summary := buildSummary ts tdata baseline, dist := d,
            correlation := correlationAnalysis tdata }

/-! ## Concrete inputs used by the theorems below -/

/-- Placeholder record used only as the inert default of getD. -/
def dummyRec : TrialRec := { number := 0, params := [], outcome := .failed "" }

/-- An evaluator invocation that exits non-zero with a rate-limit signature
in its diagnostic text. -/
def r429 : EvalResult :=
  { timedOut := false, exitCode := 1, stdout := "",
    stderr := "Error: 429 Too Many Requests" }

/-- An evaluator invocation that exceeds the per-trial timeout. -/
def rTimedOut : EvalResult :=
  { timedOut := true, exitCode := 0, stdout := "", stderr := "" }

/-- A successful evaluator invocation whose stdout holds a progress line
followed by the metric line. -/
def rMultiLine : EvalResult :=
  { timedOut := false, exitCode := 0, stdout := "progress\n1.5", stderr := "" }

/-- A successful evaluator invocation with a progress line and an integral
metric line. -/
def rSingle : EvalResult :=
  { timedOut := false, exitCode := 0, stdout := "ok\n2", stderr := "" }

/-- A successful evaluator invocation whose last non-blank stdout line is not
a float literal. -/
def rMalformed : EvalResult :=
  { timedOut := false, exitCode := 0, stdout := "done\nn/a", stderr := "" }

/-- A successful evaluator invocation that produced no stdout at all. -/
def rBlank : EvalResult :=
  { timedOut := false, exitCode := 0, stdout := "", stderr := "" }

/-- A one-trial analysis input. -/
def tdSmall : List TrialData :=
  [{ number := 0, value := 1, params := [("k1", 1)] }]

/-- A twenty-trial analysis input. -/
def td20 : List TrialData :=
  List.replicate 20 { number := 0, value := 1, params := [("k1", 2)] }

/-! ## Helper lemmas -/

theorem lookup_cons_eq (a k : String) (v : ℚ) (tl : Params) :
    List.lookup a ((k, v) :: tl) = if a = k then some v else List.lookup a tl := by
  cases h : a == k
  · have hne : a ≠ k := by
      intro he
      rw [he] at h
      simp at h
    simp [List.lookup_cons, h, hne]
  · have he : a = k := beq_iff_eq.mp h
    simp [List.lookup_cons, h, he]

theorem lookup_eq_none_of_not_mem (l : Params) (k : String)
    (h : k ∉ l.map Prod.fst) : l.lookup k = none := by
  induction l with
  | nil => simp
  | cons p rest ih =>
      obtain ⟨k0, v0⟩ := p
      rw [lookup_cons_eq]
      have h1 : k ≠ k0 := by
        intro he
        exact h (by simp [he])
      have h2 : k ∉ rest.map Prod.fst := by
        intro hm
        exact h (by simp [hm])
      simp [h1, ih h2]

theorem lookup_replaceKey (d : Params) (k0 : String) (v : ℚ) (k : String) :
    (d.map (fun p => if p.1 = k0 then (k0, v) else p)).lookup k
      = if k = k0 then (if (d.lookup k0).isSome then some v else none)
        else d.lookup k := by
  induction d with
  | nil => simp
  | cons hd tl ih =>
      obtain ⟨hk, hv⟩ := hd
      by_cases h1 : hk = k0
      · subst h1
        have e1 : List.lookup hk ((hk, hv) :: tl) = some hv := by
          rw [lookup_cons_eq, if_pos rfl]
        have e2 : List.lookup k ((hk, hv) :: tl)
            = if k = hk then some hv else List.lookup k tl := lookup_cons_eq k hk hv tl
        rw [List.map_cons,
            show (if ((hk, hv) : String × ℚ).1 = hk then (hk, v) else (hk, hv))
              = (hk, v) from by simp,
            lookup_cons_eq, ih, e1, e2]
        by_cases h2 : k = hk
        · rw [if_pos h2, if_pos h2]
          simp
        · simp [h2]
      · have e1 : List.lookup k0 ((hk, hv) :: tl) = List.lookup k0 tl := by
          rw [lookup_cons_eq, if_neg (Ne.symm h1)]
        have e2 : List.lookup k ((hk, hv) :: tl)
            = if k = hk then some hv else List.lookup k tl := lookup_cons_eq k hk hv tl
        rw [List.map_cons,
            show (if ((hk, hv) : String × ℚ).1 = k0 then (k0, v) else (hk, hv))
              = (hk, hv) from by simp [h1],
            lookup_cons_eq, ih, e1, e2]
        by_cases h2 : k = hk
        · by_cases h3 : k = k0
          · exact absurd (h2.symm.trans h3) h1
          · rw [if_pos h2, if_neg h3, if_pos h2]
        · by_cases h3 : k = k0
          · rw [if_neg h2, if_pos h3, if_pos h3]
          · rw [if_neg h2, if_neg h3, if_neg h3, if_neg h2]

theorem lookup_dictSet (d : Params) (k0 : String) (v : ℚ) (k : String) :
    (dictSet d k0 v).lookup k = if k = k0 then some v else d.lookup k := by
  unfold dictSet
  by_cases hs : (d.lookup k0).isSome
  · rw [if_pos hs, lookup_replaceKey]
    simp [hs]
  · rw [if_neg hs, List.lookup_append]
    have hnone : d.lookup k0 = none := Option.not_isSome_iff_eq_none.mp hs
    by_cases hk : k = k0
    · subst hk
      rw [hnone]
      simp [lookup_cons_eq]
    · simp [lookup_cons_eq, hk]

theorem lookup_materialize (sampled : Params) (base : Params) (k : String) :
    (materialize base sampled).lookup k
      = (sampled.reverse.lookup k).or (base.lookup k) := by
  induction sampled generalizing base with
  | nil => simp [materialize]
  | cons p rest ih =>
      obtain ⟨k0, v0⟩ := p
      show (materialize (dictSet base k0 v0) rest).lookup k = _
      rw [ih, List.reverse_cons, List.lookup_append, Option.or_assoc]
      congr 1
      rw [lookup_dictSet]
      by_cases hk : k = k0
      · subst hk
        simp [lookup_cons_eq]
      · simp [lookup_cons_eq, hk]

theorem lookup_reverse_of_nodup (l : Params) (h : (l.map Prod.fst).Nodup)
    (k : String) : l.reverse.lookup k = l.lookup k := by
  induction l with
  | nil => simp
  | cons p rest ih =>
      obtain ⟨k0, v0⟩ := p
      rw [List.reverse_cons, List.lookup_append]
      have hm : ((⟨k0, v0⟩ : String × ℚ) :: rest).map Prod.fst
          = k0 :: rest.map Prod.fst := by simp
      rw [hm] at h
      have hk0 : k0 ∉ rest.map Prod.fst := (List.nodup_cons.mp h).1
      have hnd : (rest.map Prod.fst).Nodup := (List.nodup_cons.mp h).2
      rw [ih hnd]
      by_cases hk : k = k0
      · subst hk
        rw [lookup_eq_none_of_not_mem rest k hk0]
        simp [lookup_cons_eq]
      · simp [lookup_cons_eq, hk]

theorem driverLoop_cons (n : Nat) (ps : Params) (o : EvalOutcome)
    (rest : List (Params × EvalOutcome)) :
    driverLoop n ((ps, o) :: rest)
      = { number := n, params := ps, outcome := o } ::
          (if o.isFailed then [] else driverLoop (n + 1) rest) := rfl

theorem driverLoop_number (inputs : List (Params × EvalOutcome)) :
    ∀ (n i : Nat), i < (driverLoop n inputs).length →
      ((driverLoop n inputs).getD i dummyRec).number = n + i := by
  induction inputs with
  | nil =>
      intro n i h
      simp [driverLoop] at h
  | cons p rest ih =>
      intro n i h
      obtain ⟨ps, o⟩ := p
      rw [driverLoop_cons] at h ⊢
      match i with
      | 0 => simp
      | i + 1 =>
          rw [List.getD_cons_succ]
          by_cases hf : o.isFailed
          · rw [if_pos hf] at h
            simp at h
          · rw [if_neg hf] at h ⊢
            have hlen : i < (driverLoop (n + 1) rest).length := by
              simpa using h
            have hrec := ih (n + 1) i hlen
            rw [hrec]
            omega

theorem runStudy_numbers (inputs : List (Params × EvalOutcome))
    (i : Nat) (h : i < (runStudy inputs).length) :
    ((runStudy inputs).getD i dummyRec).number = i := by
  simpa using driverLoop_number inputs 0 i h

theorem runStudy_strictMono (inputs : List (Params × EvalOutcome)) :
    (runStudy inputs).Pairwise (fun a b => a.number < b.number) := by
  rw [List.pairwise_iff_getElem]
  intro i j hi hj hij
  have h1 := runStudy_numbers inputs i hi
  have h2 := runStudy_numbers inputs j hj
  rw [List.getD_eq_getElem _ _ hi] at h1
  rw [List.getD_eq_getElem _ _ hj] at h2
  omega

theorem driverLoop_all_recorded (inputs : List (Params × EvalOutcome)) :
    ∀ (n : Nat), (∀ p ∈ inputs, (p.2 : EvalOutcome).isFailed = false) →
      (driverLoop n inputs).length = inputs.length := by
  induction inputs with
  | nil => intro n _; rfl
  | cons p rest ih =>
      intro n hall
      obtain ⟨ps, o⟩ := p
      have ho : o.isFailed = false := hall (ps, o) (List.mem_cons_self _ _)
      rw [driverLoop_cons, if_neg (by simp [ho])]
      have := ih (n + 1) (fun q hq => hall q (List.mem_cons_of_mem _ hq))
      simp [this]

theorem bestFold_mem (l : List TrialRec) :
    ∀ (acc : Option TrialRec) (t : TrialRec),
      l.foldl bestStep acc = some t → t ∈ l ∨ acc = some t := by
  induction l with
  | nil =>
      intro acc t h
      right
      exact h
  | cons x xs ih =>
      intro acc t h
      rw [List.foldl_cons] at h
      rcases ih (bestStep acc x) t h with hm | hacc
      · exact Or.inl (List.mem_cons_of_mem _ hm)
      · cases acc with
        | none =>
            left
            have : x = t := by
              have := hacc
              simp [bestStep] at this
              exact this
            rw [this]
            exact List.mem_cons_self _ _
        | some b =>
            by_cases hlt : recValue b < recValue x
            · left
              have : x = t := by
                simp [bestStep, if_pos hlt] at hacc
                exact hacc
              rw [this]
              exact List.mem_cons_self _ _
            · right
              simp [bestStep, if_neg hlt] at hacc
              rw [hacc]

theorem bestTrialOf_isComplete (ts : List TrialRec) (t : TrialRec)
    (h : bestTrialOf ts = some t) : t.outcome.isComplete = true := by
  rcases bestFold_mem (completedRecs ts) none t h with hm | hacc
  · exact (List.mem_filter.mp hm).2
  · cases hacc

theorem completedRecs_eq_nil (ts : List TrialRec)
    (h : ∀ t ∈ ts, t.outcome.isComplete = false) : completedRecs ts = [] := by
  unfold completedRecs
  rw [List.filter_eq_nil_iff]
  intro t ht
  simp [h t ht]

theorem bestTrialOf_of_no_complete (ts : List TrialRec)
    (h : ∀ t ∈ ts, t.outcome.isComplete = false) : bestTrialOf ts = none := by
  unfold bestTrialOf
  rw [completedRecs_eq_nil ts h]
  rfl

theorem scanl_materialize_getD_zero (b : Params) (l : List Params) :
    (List.scanl materialize b l).getD 0 [] = b := by
  cases l <;> simp [List.scanl_nil, List.scanl_cons]

theorem scanl_materialize_getD (samples : List Params) :
    ∀ (init : Params) (i : Nat), i < samples.length →
      (List.scanl materialize init samples).getD (i + 1) []
        = materialize ((List.scanl materialize init samples).getD i [])
            (samples.getD i []) := by
  induction samples with
  | nil =>
      intro init i h
      simp at h
  | cons s rest ih =>
      intro init i h
      rw [List.scanl_cons]
      match i with
      | 0 =>
          simp [scanl_materialize_getD_zero]
      | i + 1 =>
          have hi : i < rest.length := by simpa using h
          have := ih (materialize init s) i hi
          simpa using this

/-! ## Claim theorems -/

/-- C1, counterexample: the claim quantifies over every evaluator invocation,
citing run_evaluator of optimize_ranking.py as well; there a non-zero exit
whose error text contains the transient signature 429 is NOT recorded as
PRUNED: the trial is FAILED and the study aborts (the next queued trial is
never run). -/
theorem claim_C1_cex :
    transientSignature (errorOutput r429) = true ∧
    (runEvaluatorRanking r429).isPruned = false ∧
    (runEvaluatorRanking r429).isFailed = true ∧
    runStudy [([], runEvaluatorRanking r429), ([], EvalOutcome.complete 1)]
      = [{ number := 0, params := [], outcome := runEvaluatorRanking r429 }] := by
  refine ⟨by decide, by decide, by decide, ?_⟩
  decide

/-- C1, amended: in optimize_excellent_fit_top3.py a non-zero-exit invocation
whose captured error text contains one of the transient signatures is
recorded PRUNED and the driver loop continues, and every other non-zero exit
is recorded FAILED and the study aborts; in optimize_ranking.py every
non-zero exit is recorded FAILED and the study aborts, even when the error
text contains a transient signature. -/
theorem claim_C1_thm (r : EvalResult) (hT : r.timedOut = false)
    (hC : r.exitCode ≠ 0) (ps : Params) (rest : List (Params × EvalOutcome)) :
    (transientSignature (errorOutput r) = true →
        (runEvaluatorEF r).isPruned = true ∧
        driverLoop 0 ((ps, runEvaluatorEF r) :: rest)
          = { number := 0, params := ps, outcome := runEvaluatorEF r } ::
              driverLoop 1 rest) ∧
    (transientSignature (errorOutput r) = false →
        (runEvaluatorEF r).isFailed = true ∧
        driverLoop 0 ((ps, runEvaluatorEF r) :: rest)
          = [{ number := 0, params := ps, outcome := runEvaluatorEF r }]) ∧
    ((runEvaluatorRanking r).isFailed = true ∧
      driverLoop 0 ((ps, runEvaluatorRanking r) :: rest)
        = [{ number := 0, params := ps, outcome := runEvaluatorRanking r }]) := by
  have hEF : runEvaluatorEF r
      = if transientSignature (errorOutput r) then
          EvalOutcome.pruned "API quota exceeded"
        else
          EvalOutcome.failed ("evaluate-excellent-fit-llm.js failed: " ++ errorOutput r) := by
    unfold runEvaluatorEF
    simp [hT, hC]
  have hRank : runEvaluatorRanking r
      = EvalOutcome.failed ("Evaluator failed: " ++ errorOutput r) := by
    unfold runEvaluatorRanking
    simp [hT, hC]
  refine ⟨fun h => ?_, fun h => ?_, ?_⟩
  · rw [hEF, if_pos h]
    exact ⟨rfl, rfl⟩
  · rw [hEF, if_neg (by simp [h])]
    exact ⟨rfl, rfl⟩
  · rw [hRank]
    exact ⟨rfl, rfl⟩

/-- C1, witness: at the concrete invocation r429 the transient signature is
matched, the excellent-fit driver prunes the trial and its loop continues. -/
theorem claim_C1_witness :
    transientSignature (errorOutput r429) = true ∧
    ((runEvaluatorEF r429).isPruned = true ∧
      driverLoop 0 (([], runEvaluatorEF r429) :: [])
        = { number := 0, params := [], outcome := runEvaluatorEF r429 } ::
            driverLoop 1 []) :=
  ⟨by decide, (claim_C1_thm r429 rfl (by decide) [] []).1 (by decide)⟩

/-- C2, counterexample: the claim quantifies over every trial whose evaluator
call exceeds the timeout, citing run_evaluator of optimize_ranking.py as
well; there subprocess.run raises TimeoutExpired with no handler, so the
trial is FAILED (not PRUNED) and the study aborts instead of continuing. -/
theorem claim_C2_cex :
    (runEvaluatorRanking rTimedOut).isPruned = false ∧
    (runEvaluatorRanking rTimedOut).isFailed = true ∧
    runStudy [([], runEvaluatorRanking rTimedOut), ([], EvalOutcome.complete 1)]
      = [{ number := 0, params := [],
           outcome := EvalOutcome.failed "subprocess.TimeoutExpired" }] := by
  refine ⟨by decide, by decide, ?_⟩
  decide

/-- C2, amended: in optimize_excellent_fit_top3.py a trial whose evaluator
call exceeds the timeout is recorded PRUNED, the loop continues with the next
trial, a PRUNED trial is never selected as best, and trial numbers are
assigned consecutively (strictly increasing, no reuse); in
optimize_ranking.py a timeout fails the trial and aborts the study. -/
theorem claim_C2_thm (r : EvalResult) (hT : r.timedOut = true)
    (ps : Params) (rest : List (Params × EvalOutcome)) :
    (runEvaluatorEF r = EvalOutcome.pruned "timeout" ∧
      driverLoop 0 ((ps, runEvaluatorEF r) :: rest)
        = { number := 0, params := ps, outcome := EvalOutcome.pruned "timeout" } ::
            driverLoop 1 rest) ∧
    (∀ ts t, bestTrialOf ts = some t → t.outcome.isComplete = true) ∧
    (∀ inputs : List (Params × EvalOutcome), ∀ i : Nat,
        i < (runStudy inputs).length →
        ((runStudy inputs).getD i dummyRec).number = i) ∧
    (∀ inputs : List (Params × EvalOutcome),
        (runStudy inputs).Pairwise (fun a b => a.number < b.number)) ∧
    (runEvaluatorRanking r = EvalOutcome.failed "subprocess.TimeoutExpired" ∧
      driverLoop 0 ((ps, runEvaluatorRanking r) :: rest)
        = [{ number := 0, params := ps,
             outcome := EvalOutcome.failed "subprocess.TimeoutExpired" }]) := by
  have hEF : runEvaluatorEF r = EvalOutcome.pruned "timeout" := by
    unfold runEvaluatorEF
    simp [hT]
  have hRank : runEvaluatorRanking r = EvalOutcome.failed "subprocess.TimeoutExpired" := by
    unfold runEvaluatorRanking
    simp [hT]
  refine ⟨⟨hEF, ?_⟩, fun ts t h => bestTrialOf_isComplete ts t h,
      fun inputs i h => runStudy_numbers inputs i h,
      fun inputs => runStudy_strictMono inputs, hRank, ?_⟩
  · rw [hEF, driverLoop_cons, if_neg (by decide)]
  · rw [hRank, driverLoop_cons, if_pos (by decide)]

/-- C2, witness: at the concrete timed-out invocation rTimedOut the
excellent-fit driver prunes the trial and its loop continues, while the
ranking driver fails the trial and aborts. -/
theorem claim_C2_witness :
    (runEvaluatorEF rTimedOut = EvalOutcome.pruned "timeout" ∧
      driverLoop 0 (([], runEvaluatorEF rTimedOut) :: [([], EvalOutcome.complete 1)])
        = { number := 0, params := [], outcome := EvalOutcome.pruned "timeout" } ::
            driverLoop 1 [([], EvalOutcome.complete 1)]) ∧
    (runEvaluatorRanking rTimedOut = EvalOutcome.failed "subprocess.TimeoutExpired" ∧
      driverLoop 0 (([], runEvaluatorRanking rTimedOut) :: [([], EvalOutcome.complete 1)])
        = [{ number := 0, params := [],
             outcome := EvalOutcome.failed "subprocess.TimeoutExpired" }]) := by
  have h := claim_C2_thm rTimedOut rfl [] [([], EvalOutcome.complete 1)]
  exact ⟨h.1, h.2.2.2.2⟩

/-- C3: a study whose trials are all PRUNED or FAILED (zero COMPLETE trials)
makes the epilogue of main report the explicit no-usable-result message and
exit with status 1, rather than crash.  Study.best_trial is modelled from the
spec as absent when no COMPLETE trial exists. -/
theorem claim_C3_thm (ts : List TrialRec)
    (h : ∀ t ∈ ts, t.outcome.isComplete = false) :
    mainFinishEF ts = MainOutcome.noUsableResult 1
      "No completed trials (all timed out or failed). Increase TRIAL_TIMEOUT or lower LIMIT." := by
  unfold mainFinishEF
  rw [bestTrialOf_of_no_complete ts h]

/-- C3, witness: a one-trial study whose only trial was pruned by timeout. -/
theorem claim_C3_witness :
    mainFinishEF [{ number := 0, params := [], outcome := EvalOutcome.pruned "timeout" }]
      = MainOutcome.noUsableResult 1
        "No completed trials (all timed out or failed). Increase TRIAL_TIMEOUT or lower LIMIT." :=
  claim_C3_thm _ (by decide)

/-- C4: for every non-empty value list the analyzer returns a distribution
whose 25th and 75th percentiles are the elements at the floor indices n / 4
and 3 * n / 4 of an ascending sorted permutation of the values, with no
interpolation; in particular for the values 1..8 the quartiles are 3 and 7. -/
theorem claim_C4_thm :
    (∀ values : List ℚ, values ≠ [] →
        ∃ (d : ValueDist) (s : List ℚ), valueDistribution values = Except.ok d ∧
          s.Perm values ∧ s.Sorted (· ≤ ·) ∧
          d.q25 = s.getD (values.length / 4) 0 ∧
          d.q75 = s.getD (3 * values.length / 4) 0) ∧
    (∃ d, valueDistribution [1, 2, 3, 4, 5, 6, 7, 8] = Except.ok d ∧
        d.q25 = 3 ∧ d.q75 = 7) := by
  constructor
  · intro values hne
    match values, hne with
    | v :: rest, _ =>
        refine ⟨_, (v :: rest).insertionSort (· ≤ ·), rfl,
          List.perm_insertionSort _ _, List.sorted_insertionSort _ _, rfl, rfl⟩
  · refine ⟨_, rfl, ?_, ?_⟩
    · decide
    · decide

/-- C4, witness: the floor-index quartile characterization applied to the
concrete two-element value list. -/
theorem claim_C4_witness :
    ∃ (d : ValueDist) (s : List ℚ), valueDistribution [2, 1] = Except.ok d ∧
      s.Perm [2, 1] ∧ s.Sorted (· ≤ ·) ∧
      d.q25 = s.getD (([2, 1] : List ℚ).length / 4) 0 ∧
      d.q75 = s.getD (3 * ([2, 1] : List ℚ).length / 4) 0 :=
  claim_C4_thm.1 [2, 1] (by decide)

/-- C5, counterexample: with a present best completed value of 0.0 and a
present baseline of 65.0 the analyzer reports no improvement (Python
truthiness treats 0.0 as absent), although the claim demands that the
difference be reported whenever both are present. -/
theorem claim_C5_cex :
    improvementOverBaseline (some 0) 65 = none ∧
    some ((0 : ℚ) - 65) ≠ none := by
  exact ⟨rfl, by simp⟩

/-- C5, amended: the analyzer reports improvement-over-baseline equal to best
value minus baseline exactly when a best completed value is present and both
it and the baseline are non-zero (Python truthiness); an absent best value, a
present best value of 0.0, or a baseline of 0.0 all suppress the report; for
baseline 65.0 and best 72.3 the reported improvement is +7.3. -/
theorem claim_C5_thm (bestValue : Option ℚ) (baseline : ℚ) :
    ((∃ q, improvementOverBaseline bestValue baseline = some q) ↔
        (∃ b, bestValue = some b ∧ b ≠ 0 ∧ baseline ≠ 0)) ∧
    (∀ b : ℚ, bestValue = some b → b ≠ 0 → baseline ≠ 0 →
        improvementOverBaseline bestValue baseline = some (b - baseline)) ∧
    improvementOverBaseline none baseline = none ∧
    improvementOverBaseline (some 0) baseline = none ∧
    (∀ b : ℚ, improvementOverBaseline (some b) 0 = none) := by
  refine ⟨?_, ?_, rfl, ?_, ?_⟩
  · cases bestValue with
    | none => simp [improvementOverBaseline]
    | some b =>
        by_cases hb : b = 0
        · subst hb
          simp [improvementOverBaseline]
        · by_cases hbase : baseline = 0
          · subst hbase
            simp [improvementOverBaseline, hb]
          · simp [improvementOverBaseline, hb, hbase]
  · intro b hbv hb hbase
    subst hbv
    simp [improvementOverBaseline, hb, hbase]
  · simp [improvementOverBaseline]
  · intro b
    simp [improvementOverBaseline]

/-- C5, witness: baseline 65.0 and best completed value 72.3 yield the
reported improvement +7.3, and the same best value with baseline 0.0
suppresses the report. -/
theorem claim_C5_witness :
    improvementOverBaseline (some (723 / 10)) 65 = some ((723 : ℚ) / 10 - 65) ∧
    (723 : ℚ) / 10 - 65 = 73 / 10 ∧
    improvementOverBaseline (some (723 / 10)) 0 = none :=
  ⟨(claim_C5_thm (some (723 / 10)) 65).2.1 (723 / 10) rfl (by norm_num) (by norm_num),
    by norm_num,
    (claim_C5_thm (some (723 / 10)) 0).2.2.2.2 (723 / 10)⟩

/-- C6: the top-10 versus bottom-10 comparison is computed exactly when at
least 20 trials completed: below the threshold the analysis is empty and the
report section is absent; at or above it, each parameter gets the mean over
the 10 highest-value trials, the mean over the 10 lowest-value trials and
their signed difference, the section is present (given at least one
parameter), and the emitted rows are a permutation of the analysis ordered by
descending absolute difference. -/
theorem claim_C6_thm (tdata : List TrialData) :
    (tdata.length < 20 →
        correlationAnalysis tdata = [] ∧ correlationSection tdata = none) ∧
    (20 ≤ tdata.length →
        correlationAnalysis tdata
          = (paramNames tdata).map (fun p =>
              { param := p,
                top10Mean := mean ((tdata.take 10).map (fun t => getParam t p)),
                bottom10Mean :=
                  mean ((tdata.drop (tdata.length - 10)).map (fun t => getParam t p)),
                difference :=
                  mean ((tdata.take 10).map (fun t => getParam t p))
                    - mean ((tdata.drop (tdata.length - 10)).map (fun t => getParam t p)) }) ∧
        (paramNames tdata ≠ [] → correlationSection tdata ≠ none)) ∧
    (∀ rows, correlationSection tdata = some rows →
        rows.Sorted (fun a b => |b.difference| ≤ |a.difference|) ∧
        rows.Perm (correlationAnalysis tdata)) := by
  refine ⟨?_, ?_, ?_⟩
  · intro h
    have hca : correlationAnalysis tdata = [] := by
      unfold correlationAnalysis
      rw [if_neg (by omega)]
    refine ⟨hca, ?_⟩
    unfold correlationSection
    rw [hca]
    rfl
  · intro h
    have hca : correlationAnalysis tdata
        = (paramNames tdata).map (fun p =>
            { param := p,
              top10Mean := mean ((tdata.take 10).map (fun t => getParam t p)),
              bottom10Mean :=
                mean ((tdata.drop (tdata.length - 10)).map (fun t => getParam t p)),
              difference :=
                mean ((tdata.take 10).map (fun t => getParam t p))
                  - mean ((tdata.drop (tdata.length - 10)).map (fun t => getParam t p)) }) := by
      unfold correlationAnalysis
      rw [if_pos h]
    refine ⟨hca, fun hpn => ?_⟩
    unfold correlationSection
    rw [if_neg ?_]
    · simp
    · rw [hca]
      simp [hpn]
  · intro rows hrows
    unfold correlationSection at hrows
    by_cases he : (correlationAnalysis tdata).isEmpty
    · rw [if_pos he] at hrows
      cases hrows
    · rw [if_neg he] at hrows
      have hr : (correlationAnalysis tdata).insertionSort
          (fun a b => |b.difference| ≤ |a.difference|) = rows := by
        injection hrows
      rw [← hr]
      exact ⟨List.sorted_insertionSort _ _, List.perm_insertionSort _ _⟩

/-- C6, witness: a one-trial input has an empty analysis and an absent report
section, while a twenty-trial input has a present report section. -/
theorem claim_C6_witness :
    (correlationAnalysis tdSmall = [] ∧ correlationSection tdSmall = none) ∧
    correlationSection td20 ≠ none := by
  refine ⟨(claim_C6_thm tdSmall).1 (by decide), ?_⟩
  exact ((claim_C6_thm td20).2.1 (by decide)).2 (by decide)

/-- C7, counterexample: the claim quantifies over every successful
invocation, citing run_evaluator of optimize_ranking.py as well; there the
whole stripped stdout (not the last non-blank line) is parsed, so the
successful invocation rMultiLine, whose last non-blank line is the scalar
1.5, is recorded FAILED instead of COMPLETE. -/
theorem claim_C7_cex :
    (runEvaluatorRanking rMultiLine).isComplete = false ∧
    (runEvaluatorRanking rMultiLine).isFailed = true ∧
    (nonBlankLines rMultiLine.stdout).getLast? = some "1.5" ∧
    (parsePyFloat "1.5").isSome = true ∧
    (runEvaluatorEF rMultiLine).isComplete = true := by
  refine ⟨by decide, by decide, by decide, by decide, by decide⟩

/-- C7, amended: for every successful (zero-exit, non-timed-out) invocation,
optimize_excellent_fit_top3.py records the trial COMPLETE with value v
exactly when the last non-blank line of stdout parses as the float v, and a
missing or malformed line is recorded FAILED (never PRUNED);
optimize_ranking.py instead parses the entire stripped stdout, so it records
COMPLETE with v exactly when that whole text is the single float literal v,
and FAILED otherwise. -/
theorem claim_C7_thm (r : EvalResult) (hT : r.timedOut = false)
    (hC : r.exitCode = 0) :
    (∀ v : ℚ, runEvaluatorEF r = EvalOutcome.complete v ↔
        ∃ last, (nonBlankLines r.stdout).getLast? = some last ∧
          parsePyFloat last = some v) ∧
    ((nonBlankLines r.stdout).getLast? = none →
        runEvaluatorEF r
          = EvalOutcome.failed "evaluate-excellent-fit-llm.js produced no stdout") ∧
    (∀ last, (nonBlankLines r.stdout).getLast? = some last →
        parsePyFloat last = none →
        runEvaluatorEF r
          = EvalOutcome.failed ("could not convert string to float: " ++ last)) ∧
    (∀ v : ℚ, runEvaluatorRanking r = EvalOutcome.complete v ↔
        parsePyFloat (pyStrip r.stdout) = some v) ∧
    (parsePyFloat (pyStrip r.stdout) = none →
        runEvaluatorRanking r
          = EvalOutcome.failed
              ("could not convert string to float: " ++ pyStrip r.stdout)) := by
  have hEF : runEvaluatorEF r
      = (match (nonBlankLines r.stdout).getLast? with
        | none => EvalOutcome.failed "evaluate-excellent-fit-llm.js produced no stdout"
        | some last =>
            match parsePyFloat last with
            | some v => EvalOutcome.complete v
            | none => EvalOutcome.failed ("could not convert string to float: " ++ last)) := by
    unfold runEvaluatorEF
    simp [hT, hC]
  have hRank : runEvaluatorRanking r
      = (match parsePyFloat (pyStrip r.stdout) with
        | some v => EvalOutcome.complete v
        | none =>
            EvalOutcome.failed ("could not convert string to float: " ++ pyStrip r.stdout)) := by
    unfold runEvaluatorRanking
    simp [hT, hC]
  refine ⟨?_, ?_, ?_, ?_, ?_⟩
  · intro v
    rw [hEF]
    cases hl : (nonBlankLines r.stdout).getLast? with
    | none => simp
    | some last =>
        cases hp : parsePyFloat last with
        | none => simp [hp]
        | some w => simp [hp]
  · intro hl
    rw [hEF, hl]
  · intro last hl hp
    rw [hEF, hl]
    simp [hp]
  · intro v
    rw [hRank]
    cases hp : parsePyFloat (pyStrip r.stdout) with
    | none => simp
    | some w => simp
  · intro hp
    rw [hRank, hp]

/-- C7, witness: at the successful invocation rSingle the excellent-fit
driver records COMPLETE with the value parsed from the last non-blank stdout
line and the ranking driver ties COMPLETE to parsing the whole stripped
stdout; at rMalformed and rBlank the excellent-fit driver records the trial
FAILED, as does the ranking driver on unparsable stdout. -/
theorem claim_C7_witness :
    runEvaluatorEF rSingle = EvalOutcome.complete 2 ∧
    (runEvaluatorRanking rSingle = EvalOutcome.complete 2 ↔
      parsePyFloat (pyStrip rSingle.stdout) = some 2) ∧
    runEvaluatorEF rMalformed
      = EvalOutcome.failed ("could not convert string to float: " ++ "n/a") ∧
    runEvaluatorEF rBlank
      = EvalOutcome.failed "evaluate-excellent-fit-llm.js produced no stdout" ∧
    runEvaluatorRanking rMalformed
      = EvalOutcome.failed
          ("could not convert string to float: " ++ pyStrip rMalformed.stdout) :=
  ⟨((claim_C7_thm rSingle rfl rfl).1 2).mpr ⟨"2", by decide, by decide⟩,
    (claim_C7_thm rSingle rfl rfl).2.2.2.1 2,
    (claim_C7_thm rMalformed rfl rfl).2.2.1 "n/a" (by decide) (by decide),
    (claim_C7_thm rBlank rfl rfl).2.1 (by decide),
    (claim_C7_thm rMalformed rfl rfl).2.2.2.2 (by decide)⟩

/-- C8: the parameter set written for the evaluator is the full materialized
set: every sampled key carries its sampled value, every other key passes
through with its base value unchanged, no base key is dropped, and the
stage-A driver writes the fixed stage_a_top_n alongside the sampled k1 and b
(a partial overlay of only the sampled keys is never written). -/
theorem claim_C8_thm (base sampled : Params)
    (hnd : (sampled.map Prod.fst).Nodup) :
    (∀ k v, sampled.lookup k = some v →
        (materialize base sampled).lookup k = some v) ∧
    (∀ k, sampled.lookup k = none →
        (materialize base sampled).lookup k = base.lookup k) ∧
    (∀ k, (base.lookup k).isSome → ((materialize base sampled).lookup k).isSome) ∧
    (∀ k1v bv : ℚ,
        stageAParams k1v bv
          = materialize [("stage_a_top_n", 150)] [("k1", k1v), ("b", bv)]) := by
  refine ⟨?_, ?_, ?_, ?_⟩
  · intro k v hk
    rw [lookup_materialize, lookup_reverse_of_nodup sampled hnd, hk]
    rfl
  · intro k hk
    rw [lookup_materialize, lookup_reverse_of_nodup sampled hnd, hk]
    rfl
  · intro k hk
    rw [lookup_materialize]
    cases hr : sampled.reverse.lookup k with
    | none => exact hk
    | some w => rfl
  · intro k1v bv
    rfl

/-- C8, witness: a concrete base and sampled set: the sampled key wins, the
untouched base key passes through. -/
theorem claim_C8_witness :
    (materialize [("a", 1), ("k1", 5)] [("k1", 2), ("b", 3)]).lookup "k1" = some 2 ∧
    (materialize [("a", 1), ("k1", 5)] [("k1", 2), ("b", 3)]).lookup "a"
      = ([("a", 1), ("k1", 5)] : Params).lookup "a" := by
  have h := claim_C8_thm [("a", 1), ("k1", 5)] [("k1", 2), ("b", 3)] (by decide)
  exact ⟨h.1 "k1" 2 (by decide), h.2.1 "a" (by decide)⟩

/-- C9: in the drivers that tune keys of the shared default weights file
(optimize_ranking, optimize_bm25_params, optimize_field_weights) the base
configuration read at trial i+1 is exactly the materialized set written at
trial i; a tuned key sampled at trial i keeps the sampled value in the file
regardless of its original default; and after the study the file is
overwritten with the best parameters, so the original defaults of the tuned
keys are not preserved or restored. -/
theorem claim_C9_thm (init : Params) (samples : List Params) (i : Nat)
    (hi : i < samples.length) :
    ((rankingWeightsStates init samples).getD (i + 1) []
        = materialize ((rankingWeightsStates init samples).getD i [])
            (samples.getD i [])) ∧
    (∀ k v, (samples.getD i []).lookup k = some v →
        ((samples.getD i []).map Prod.fst).Nodup →
        ((rankingWeightsStates init samples).getD (i + 1) []).lookup k = some v) ∧
    (∀ afterStudy best : Params, ∀ k, ∀ v : ℚ, best.lookup k = some v →
        (best.map Prod.fst).Nodup →
        (rankingFinalWeights afterStudy best).lookup k = some v) := by
  have hs : rankingWeightsStates init samples
      = List.scanl materialize init samples := rfl
  refine ⟨?_, ?_, ?_⟩
  · rw [hs]
    exact scanl_materialize_getD samples init i hi
  · intro k v hk hnd
    rw [hs, scanl_materialize_getD samples init i hi,
        lookup_materialize, lookup_reverse_of_nodup _ hnd, hk]
    rfl
  · intro afterStudy best k v hk hnd
    unfold rankingFinalWeights
    rw [lookup_materialize, lookup_reverse_of_nodup _ hnd, hk]
    rfl

/-- C9, witness: one trial over a one-key default file: the file read after
the trial is the set written by the trial, and the tuned key holds the
sampled value 2, not the original default 1. -/
theorem claim_C9_witness :
    ((rankingWeightsStates [("k1", 1)] [[("k1", 2)]]).getD 1 []
        = materialize ((rankingWeightsStates [("k1", 1)] [[("k1", 2)]]).getD 0 [])
            (([[("k1", 2)]] : List Params).getD 0 [])) ∧
    ((rankingWeightsStates [("k1", 1)] [[("k1", 2)]]).getD 1 []).lookup "k1"
      = some 2 := by
  have h := claim_C9_thm [("k1", 1)] [[("k1", 2)]] 0 (by decide)
  exact ⟨h.1, h.2.1 "k1" 2 (by decide) (by decide)⟩

/-- C10: for every study with zero COMPLETE trials, building the analysis
raises an exception (ValueError from min over the empty value list) instead
of producing a report with empty or null statistics. -/
theorem claim_C10_thm (ts : List TrialRec) (baseline : ℚ)
    (h : ∀ t ∈ ts, t.outcome.isComplete = false) :
    buildAnalysis ts baseline = Except.error "min() arg is an empty sequence" := by
  have hcd : completedData ts = [] := by
    unfold completedData
    rw [List.filterMap_eq_nil_iff]
    intro t ht
    have hcomp := h t ht
    cases ho : t.outcome with
    | complete v =>
        rw [ho] at hcomp
        simp [EvalOutcome.isComplete] at hcomp
    | pruned s => rfl
    | failed s => rfl
  unfold buildAnalysis
  rw [hcd]
  rfl

/-- C10, witness: a one-trial study whose only trial was pruned. -/
theorem claim_C10_witness :
    buildAnalysis [{ number := 0, params := [], outcome := EvalOutcome.pruned "timeout" }] 65
      = Except.error "min() arg is an empty sequence" :=
  claim_C10_thm _ 65 (by decide)

end RankingOpt
